import Mathlib

/-!
Verification development for the packing_models repository.

This file gives a shallow embedding, over the rationals, of the grasp
database (`find_grasp_in_db`, `add_grasp_in_db`), the grasp candidate
enumeration and handle filter of `get_grasp_poses`, the grasp validator
`set_gripper_pose`, the scale sampler `sample_model_scale_from_constraint`
with its `models` catalog, and `get_instance_name`.  External collaborators
(the pybullet simulation, `pp.quat_from_euler`, `pp.euler_from_quat`,
`pp.multiply`, the random number generator, the clock) are taken as
parameters, so every repository-side computation stays executable.
-/

set_option maxHeartbeats 1000000

namespace PackingModels

/-! ## Vectors

Positions and Euler angles are rational 3-vectors; quaternions are rational
4-vectors.  Quaternion components produced by trigonometry never need to be
evaluated: the conversions between Euler angles and quaternions are
uninterpreted parameters throughout. -/

abbrev Vec3 : Type := ℚ × ℚ × ℚ

abbrev Vec4 : Type := ℚ × ℚ × ℚ × ℚ

/-- Componentwise negation, as in `minus(0, f)` over numpy arrays. -/
def vneg (v : Vec3) : Vec3 := (-v.1, -v.2.1, -v.2.2)

/-- Scalar multiple of a 3-vector, as in `scale * np.array(p)`. -/
def vscale (s : ℚ) (v : Vec3) : Vec3 := (s * v.1, s * v.2.1, s * v.2.2)

/-- Rational sign, as `np.sign` on a nonzero float (and 0 at 0). -/
def qsign (x : ℚ) : ℚ := if x < 0 then -1 else if x = 0 then 0 else 1

/-! ## List and string helpers -/

/-- Whether the first list is an initial segment of the second. -/
def listStartsWith : List Char → List Char → Bool
  | [], _ => true
  | _ :: _, [] => false
  | a :: as, b :: bs => a == b && listStartsWith as bs

/-- Whether `needle` occurs contiguously inside the second list; models the
Python substring test `needle in s`. -/
def listHasSub (needle : List Char) : List Char → Bool
  | [] => listStartsWith needle []
  | c :: t => listStartsWith needle (c :: t) || listHasSub needle t

/-- Python substring membership `needle in hay` on strings. -/
def strHas (needle hay : String) : Bool := listHasSub needle.toList hay.toList

/-- First-match association-list lookup; models reading `d[k]` / `k in d`
on a Python dict represented as its (unique-keyed) item list. -/
def lookupKey {κ β : Type} [DecidableEq κ] : List (κ × β) → κ → Option β
  | [], _ => none
  | (k, v) :: t, key => if k = key then some v else lookupKey t key

/-- Dict assignment `d[k] = v`: replaces in place if the key exists,
otherwise appends the new pair at the end (Python insertion order). -/
def setKey {κ β : Type} [DecidableEq κ] : List (κ × β) → κ → β → List (κ × β)
  | [], k, v => [(k, v)]
  | (k0, v0) :: t, k, v => if k0 = k then (k0, v) :: t else (k0, v0) :: setKey t k v

/-! ## Python rounding

`round(x, 4)` in Python rounds to 4 decimal digits with ties going to the
even last digit (banker's rounding). -/

/-- Round a rational to the nearest integer, ties to even. -/
def pyRoundInt (x : ℚ) : ℤ :=
  let f := ⌊x⌋
  let r := x - (f : ℚ)
  if r < 1/2 then f
  else if 1/2 < r then f + 1
  else if 2 ∣ f then f else f + 1

/-- Python `round(x, d)` for `d` decimal digits. -/
def pyRound (d : ℕ) (x : ℚ) : ℚ := (pyRoundInt (x * (10 : ℚ) ^ d) : ℚ) / (10 : ℚ) ^ d

/-- `nice_tuple` from pybullet_utils.py applied to a 3-vector: each
component rounded to `d` decimal digits (`nice_float`; the int fast path
returns the same numeric value). -/
def nice_tuple3 (d : ℕ) (v : Vec3) : Vec3 := (pyRound d v.1, pyRound d v.2.1, pyRound d v.2.2)

/-! ## Grasp database model

A database file is a JSON object keyed by instance name.  A stored grasp is
one of the three accepted encodings (flat 6-tuple, point+euler pair,
point+quaternion pair).  The `scale` field of an entry can be absent
(legacy), JSON `null` (Python `None`), or a number. -/

/-- One grasp as persisted in the database JSON. -/
inductive StoredGrasp : Type where
  | flat6 (pt : Vec3) (euler : Vec3)
  | pointEuler (pt : Vec3) (euler : Vec3)
  | pointQuat (pt : Vec3) (quat : Vec4)
deriving DecidableEq

/-- The `scale` field of a database entry: missing key, `null`, or a number. -/
inductive ScaleVal : Type where
  | absent
  | null
  | val (s : ℚ)
deriving DecidableEq

/-- A grasp database entry.  `other_scales` is `none` when the key is
missing; its keys are the alternate scales (Python uses `str(scale)` as the
JSON key, which is injective on distinct scale values, so we key by the
value itself). -/
structure Entry : Type where
  name : String
  grasps : List StoredGrasp
  datetime : String
  scale : ScaleVal
  other_scales : Option (List (Option ℚ × List StoredGrasp))
deriving DecidableEq

/-- A loaded database: the JSON object as an ordered, unique-keyed item list. -/
abbrev Db : Type := List (String × Entry)

/-- Decoded in-memory grasp: (position, quaternion). -/
abbrev Grasp : Type := Vec3 × Vec4

section GraspDb

variable (quat_from_euler : Vec3 → Vec4) (euler_from_quat : Vec4 → Vec3)

/-- Decode one stored grasp, dispatching on the format of the FIRST list
element `d0` exactly as `rewrite_grasps` does (`len(data[0]) == 6`,
`len(data[0][1]) == 3`, `len(data[0][1]) == 4`).  A list whose elements do
not all share the head's format would make the Python produce garbage; such
lists never arise and the mismatch arms return a junk value. -/
def decode_one (d0 d : StoredGrasp) : Grasp :=
  match d0 with
  | .flat6 _ _ =>
    match d with
    | .flat6 pt e => (pt, quat_from_euler e)
    | _ => ((0, 0, 0), (0, 0, 0, 0))
  | .pointEuler _ _ =>
    match d with
    | .pointEuler pt e => (pt, quat_from_euler e)
    | _ => ((0, 0, 0), (0, 0, 0, 0))
  | .pointQuat _ _ =>
    match d with
    | .pointQuat pt q => (pt, q)
    | _ => ((0, 0, 0), (0, 0, 0, 0))

/-- `rewrite_grasps` from `find_grasp_in_db`: normalize a stored grasp list
to (point, quaternion) pairs.  Python indexes `data[0]`, so it is only ever
called on non-empty lists; the `[]` case is unreachable there. -/
def rewrite_grasps : List StoredGrasp → List Grasp
  | [] => []
  | d0 :: rest => (d0 :: rest).map (decode_one quat_from_euler d0)

/-- The test `'scale' in all_data and scale == all_data['scale']`. -/
def scale_matches : ScaleVal → Option ℚ → Bool
  | .absent, _ => false
  | .null, none => true
  | .null, some _ => false
  | .val _, none => false
  | .val s0, some s1 => s1 == s0

/-- `find_grasp_in_db` (pybullet_utils.py): look an instance up in the
loaded database, decoding and scale-adjusting its grasps.  Returns the
`found` component (`db` and `db_file` pass through unchanged in the
source).  In the branch marked below, CPython would raise `TypeError`
(float divided by `None`); no claim exercises it and it is modelled as
returning the grasps unscaled. -/
def find_grasp_in_db (db : Db) (instance_name : String) (scale : Option ℚ) :
    Option (List Grasp) :=
  match lookupKey db instance_name with
  | none => none
  | some all_data =>
    if !(strHas "::" instance_name) || scale_matches all_data.scale scale then
      if all_data.grasps.length > 0 then
        let found := rewrite_grasps quat_from_euler all_data.grasps
        match scale, all_data.scale with
        | some s1, .val s0 =>
          if s1 ≠ s0 then some (found.map (fun g => (vscale (s1 / s0) g.1, g.2)))
          else some found
        | some _, .null => some found
        | _, _ => some found
      else none
    else
      match all_data.other_scales with
      | some m =>
        match lookupKey m scale with
        | some data => some (rewrite_grasps quat_from_euler data)
        | none => none
      | none => none

/-- `nice(g, 4)` on a (point, quaternion) pose with `one_tuple=True`:
flatten to (x, y, z, roll, pitch, yaw) via `euler_from_quat` and round
every component to 4 decimal digits. -/
def nice_pose4 (g : Grasp) : StoredGrasp :=
  .flat6 (nice_tuple3 4 g.1) (nice_tuple3 4 (euler_from_quat g.2))

/-- The value written to the `scale` field of a fresh entry
(`'scale': scale`, where a Python `None` becomes JSON `null`). -/
def scaleStore : Option ℚ → ScaleVal
  | none => .null
  | some s => .val s

/-- Stable insertion of one item into a list sorted ascending by the
`datetime` field, placing it after existing equal keys. -/
def insertByDatetime (p : String × Entry) : Db → Db
  | [] => [p]
  | q :: t =>
    if q.2.datetime ≤ p.2.datetime then q :: insertByDatetime p t
    else p :: q :: t

/-- `sorted(keys.items(), key=lambda x: x[1])`: re-order the store
ascending by each entry's `datetime` string (Python's sort is stable). -/
def sortByDatetime (db : Db) : Db := db.foldl (fun acc x => insertByDatetime x acc) []

/-- `add_grasp_in_db` (pybullet_utils.py).  Returns `none` when the early
returns fire (no instance name, or an empty grasp list): neither the
in-memory store nor the file is touched.  Otherwise returns `some` of the
re-sorted store that `dump_json` writes to the database file.  `now` stands
for `get_datetime()` (the clock is external). -/
def add_grasp_in_db (db : Db) (instance_name : Option String) (grasps : List Grasp)
    (name : Option String) (scale : Option ℚ) (now : String) : Option Db :=
  match instance_name with
  | none => none
  | some inst =>
    if (grasps.map (nice_pose4 euler_from_quat)).length = 0 then none
    else
      some (sortByDatetime
        (match lookupKey db inst with
         | some e =>
           setKey db inst
             { e with other_scales := some (setKey (e.other_scales.getD []) scale
                 (grasps.map (nice_pose4 euler_from_quat))) }
         | none =>
           db ++ [(inst, ⟨name.getD "None", grasps.map (nice_pose4 euler_from_quat),
             now, scaleStore scale, none⟩)]))

end GraspDb

/-! ## Grasp candidate generator

The enumeration loop of `get_grasp_poses` (pybullet_utils.py, before any
candidate is handed to `set_gripper_pose` for validation).  Euler angles in
the orientation table `rots` are stored as rational coefficients of π
(e.g. `(1/2, 0, -1/2)` stands for `(π/2, 0, -π/2)`); the grasp pose built
from a candidate `(f, r)` is `(f, quat_from_euler r)` since
`pp.multiply(Pose(point=f), Pose(euler=r))` composes a pure translation
with a pure rotation. -/

/-- The fixed orientation table `rots`, keyed by the six canonical unit
directions.  Any other key would raise `KeyError` in Python; the catch-all
`[]` is unreachable because `normalize_dir` only produces the six keys. -/
def rots (u : Vec3) : List Vec3 :=
  if u = (1, 0, 0) then
    [(1/2, 0, -1/2), (1/2, 1, -1/2), (1/2, -1/2, -1/2), (1/2, 1/2, -1/2)]
  else if u = (-1, 0, 0) then
    [(1/2, 0, 1/2), (1/2, 1, 1/2), (1/2, -1/2, 1/2), (1/2, 1/2, 1/2),
     (-1, -1/2, 0), (-1, -1/2, -1)]
  else if u = (0, 1, 0) then
    [(0, 1/2, -1/2), (0, -1/2, 1/2), (1/2, 1, 0), (1/2, 0, 0)]
  else if u = (0, -1, 0) then
    [(0, 1/2, 1/2), (0, -1/2, -1/2), (-1/2, 1, 0), (-1/2, 0, 0)]
  else if u = (0, 0, 1) then
    [(1, 0, 1/2), (1, 0, -1/2), (1, 0, 0), (1, 0, 1)]
  else if u = (0, 0, -1) then
    [(0, 0, -1/2), (0, 0, 1/2), (0, 0, 0), (0, 0, 1)]
  else []

/-- `p = np.array(f); p = p / np.linalg.norm(p)` followed by
`ang = tuple(p)`.  For an axis-aligned `f` the result is the corresponding
signed unit direction (a valid `rots` key).  For any other `f` the
normalized tuple is not a `rots` key (its entries are not in 0, ±1), so the
subsequent `rots[ang]` raises `KeyError` in Python; that is modelled as
`none` (no candidates can be produced). -/
def normalize_dir (f : Vec3) : Option Vec3 :=
  if f.1 ≠ 0 ∧ f.2.1 = 0 ∧ f.2.2 = 0 then some (qsign f.1, 0, 0)
  else if f.1 = 0 ∧ f.2.1 ≠ 0 ∧ f.2.2 = 0 then some (0, qsign f.2.1, 0)
  else if f.1 = 0 ∧ f.2.1 = 0 ∧ f.2.2 ≠ 0 then some (0, 0, qsign f.2.2)
  else none

/-- Body of the `for f in faces:` loop: normalize the face direction,
apply the handle filter (`on_longest = sum(filter[i]*p[i]) != 0`;
`if HANDLE_FILTER and not on_longest: continue`), then emit one candidate
per entry of that direction's orientation table. -/
def face_candidates (filt : Vec3) (handle_filter : Bool) (f : Vec3) : List (Vec3 × Vec3) :=
  match normalize_dir f with
  | none => []
  | some p =>
    if handle_filter ∧ ¬(filt.1 * p.1 + filt.2.1 * p.2.1 + filt.2.2 * p.2.2 ≠ 0) then []
    else (rots p).map (fun r => (f, r))

/-- The candidate enumeration of `get_grasp_poses`: default or custom face
points from the AABB extent `(w, l, h)` and `dist = grasp_length`, the
longest-dimension filter vector `[int(x != max_value) for x in dimensions]`,
and the per-face candidate lists, concatenated in face order. -/
def generate_candidates (extent : Vec3) (dist : ℚ) (handle_filter : Bool)
    (faces : Option (List Vec3)) : List (Vec3 × Vec3) :=
  let w := extent.1
  let l := extent.2.1
  let h := extent.2.2
  let base : List Vec3 := [(w/2 + dist, 0, 0), (0, l/2 + dist, 0), (0, 0, h/2 + dist)]
  let face_list : List Vec3 :=
    match faces with
    | none => base ++ base.map vneg
    | some fs => fs.map (fun f => (f.1 * (w/2 + dist), f.2.1 * (l/2 + dist), f.2.2 * (h/2 + dist)))
  let maxv := max w (max l h)
  let filt : Vec3 :=
    (if w ≠ maxv then 1 else 0, if l ≠ maxv then 1 else 0, if h ≠ maxv then 1 else 0)
  face_list.flatMap (face_candidates filt handle_filter)

/-! ## Grasp validator

`set_gripper_pose` runs against the live simulation.  Its queries are taken
as given oracles: the inverse-kinematics result for the composed world
pose, the open-gripper collision test at a configuration, the contact list
after closing the gripper, and the gripper joint positions after closing.
Pose composition `pp.multiply` is external library arithmetic and is a
function parameter `mult`. -/

/-- One record of `c.w.get_contact(robot.panda)`; only the `body_b` field
is inspected. -/
structure ContactPoint : Type where
  body_b : ℕ
deriving DecidableEq

/-- The simulation queries `set_gripper_pose` makes, snapshotted as given
oracles for one candidate validation. -/
structure GripperSim (Conf : Type) : Type where
  ikfast : Vec3 × Vec4 → Option Conf
  is_colliding : Conf → Bool
  contacts_after_close : List ContactPoint
  gripper_qpos_after_close : List ℚ

/-- One coordinate of the length adjustment
`new_point[which_dim] -= np.sign(new_point[which_dim]) * dz`
(`which_dim` selects the nonzero coordinates). -/
def adjust_coord (x dz : ℚ) : ℚ := if x ≠ 0 then x - qsign x * dz else x

/-- The adjusted grasp point for a displacement `dz`. -/
def adjust_point (pt : Vec3) (dz : ℚ) : Vec3 :=
  (adjust_coord pt.1 dz, adjust_coord pt.2.1 dz, adjust_coord pt.2.2 dz)

section Gripper

variable {Conf : Type} (mult : Vec3 × Vec4 → Vec3 × Vec4 → Vec3 × Vec4)

/-- One iteration of the `for dz in lengths:` loop of `set_gripper_pose`:
build the adjusted grasp, compose it with the body pose, and run the
reject checks in order (IK failure; open-gripper collision; no contact
with the target body after closing; summed gripper joint position of
magnitude below 0.01).  `result` is the loop's dead always-`True` flag. -/
def sgp_attempt (o : GripperSim Conf) (pose : Vec3 × Vec4) (body : ℕ)
    (grasp_pose : Vec3 × Vec4) (dz : ℚ) : Option (Vec3 × Vec4) :=
  let result := true
  let grasp : Vec3 × Vec4 := (adjust_point grasp_pose.1 dz, grasp_pose.2)
  let pick_pose := mult pose grasp
  match o.ikfast pick_pose with
  | none => none
  | some pick_q =>
    if o.is_colliding pick_q then none
    else if (o.contacts_after_close.filter (fun cp => cp.body_b == body)).length = 0 then none
    else if |o.gripper_qpos_after_close.sum| < 1/100 then none
    else if result then some grasp else none

/-- The `for dz in lengths:` loop: first accepted attempt wins, `None`
after exhausting the displacement list. -/
def sgp_loop (o : GripperSim Conf) (pose : Vec3 × Vec4) (body : ℕ)
    (grasp_pose : Vec3 × Vec4) : List ℚ → Option (Vec3 × Vec4)
  | [] => none
  | dz :: rest =>
    match sgp_attempt mult o pose body grasp_pose dz with
    | some g => some g
    | none => sgp_loop o pose body grasp_pose rest

/-- `set_gripper_pose` (pybullet_utils.py): the displacement list is
`[0] if try_length else [0]` and the loop runs over it. -/
def set_gripper_pose (o : GripperSim Conf) (pose : Vec3 × Vec4) (body : ℕ)
    (grasp_pose : Vec3 × Vec4) (try_length : Bool) : Option (Vec3 × Vec4) :=
  sgp_loop mult o pose body grasp_pose (if try_length then [(0 : ℚ)] else [(0 : ℚ)])

end Gripper

/-! ## Asset catalog and scale sampling (assets.py) -/

/-- A size-constraint key of the `models` catalog that appears in the
`keys` table of `sample_model_scale_from_constraint`
(`length-range`, `width-range`, `height-range`, `x-range`, `y-range`). -/
inductive RangeKey : Type where
  | lengthR
  | widthR
  | heightR
  | xR
  | yR
deriving DecidableEq

/-- One catalog category: its model ids and its registered size
constraints (key, lower bound, upper bound), in dict insertion order.
Keys of the category dict that are not in `keys` (that is, `models`
and `grasps`) are dropped by the `criteria` comprehension and are kept
here separately as `ids`. -/
structure CatModels : Type where
  ids : List String
  ranges : List (RangeKey × ℚ × ℚ)

/-- The `models` catalog of assets.py. -/
def models : List (String × CatModels) := [
  ("Phone", ⟨["103251", "103813", "103828", "103916", "103927"],
    [(.lengthR, 0.18, 0.2)]⟩),
  ("Remote", ⟨["100269", "100270", "100392", "100394", "100809", "100819", "100997", "101034"],
    [(.lengthR, 0.22, 0.24), (.widthR, 0, 0.06)]⟩),
  ("StaplerFlat", ⟨["103095", "103104", "103271", "103273", "103280", "103297", "103792"],
    [(.lengthR, 0.2, 0.22)]⟩),
  ("USBFlat", ⟨["100085", "100073", "100095", "100071", "101950", "102063"],
    [(.lengthR, 0.05, 0.07)]⟩),
  ("Bowl", ⟨["7000", "7001", "7002", "7003", "7004"],
    [(.lengthR, 0.15, 0.17)]⟩),
  ("Cup", ⟨["7004", "7005", "7006", "7007"],
    [(.lengthR, 0.07, 0.09)]⟩),
  ("Mug", ⟨["7008", "7009", "7010", "7011"],
    [(.lengthR, 0.07, 0.09)]⟩),
  ("Bottle", ⟨["3520", "3596", "3625", "4216", "4403", "4514", "6771"],
    [(.lengthR, 0.04, 0.06)]⟩),
  ("Camera", ⟨["101352", "102417", "102434", "102536", "102852", "102873", "102890"],
    [(.heightR, 0.1, 0.12)]⟩),
  ("FoldingKnife", ⟨["101068", "101079", "101107", "101245", "103740"],
    [(.lengthR, 0.06, 0.12), (.widthR, 0.06, 0.12)]⟩),
  ("Pliers", ⟨["100144", "100146", "100179", "100182", "102243", "102288"],
    [(.lengthR, 0.15, 0.17)]⟩),
  ("Scissors", ⟨["10495", "10502", "10537", "10567", "11021", "11029"],
    [(.lengthR, 0.13, 0.15)]⟩),
  ("USB", ⟨["100086", "100109", "100082", "100078", "100065", "101999", "102008"],
    [(.lengthR, 0.05, 0.07)]⟩),
  ("Eyeglasses", ⟨["101284", "101287", "101293", "101291", "101303", "101326", "101328", "101838"],
    [(.lengthR, 0.1, 0.12)]⟩),
  ("Stapler", ⟨["102990", "103099", "103113", "103283", "103299", "103307"],
    [(.lengthR, 0.18, 0.2)]⟩),
  ("OpenedBottle", ⟨["3574", "3571", "3763", "3517", "3868", "3830", "3990", "4043"],
    [(.lengthR, 0.04, 0.06)]⟩),
  ("Dispenser", ⟨["101458", "101517", "101533", "101563", "103397", "103416"],
    [(.lengthR, 0.05, 0.07)]⟩),
  ("Suitcase", ⟨["100550", "101668", "103755", "103761"],
    [(.yR, 0.3, 0.4)]⟩),
  ("Box", ⟨["100426", "100154", "100243"],
    [(.yR, 0.3, 0.4)]⟩),
  ("Safe", ⟨["101363", "102373", "101584", "101591", "101611", "102316"],
    [(.heightR, 0.8, 0.9)]⟩)]

/-- The `keys` table mapping a constraint key to an extent axis; when
`extent[0] < extent[1]`, `length-range` and `width-range` swap axes. -/
def axisOf (swap : Bool) : RangeKey → ℕ
  | .lengthR => if swap then 1 else 0
  | .widthR => if swap then 0 else 1
  | .heightR => 2
  | .xR => 0
  | .yR => 1

/-- Component of a natural extent at an axis index. -/
def extentAt (e : Vec3) : ℕ → ℚ
  | 0 => e.1
  | 1 => e.2.1
  | _ => e.2.2

/-- The per-constraint interval
`r = [models[category][k][i] / extent[keys[k]] for i in range(2)]`. -/
def constraint_interval (extent : Vec3) (swap : Bool) (c : RangeKey × ℚ × ℚ) : ℚ × ℚ :=
  (c.2.1 / extentAt extent (axisOf swap c.1), c.2.2 / extentAt extent (axisOf swap c.1))

/-- The intersected scale interval: running max of lower bounds, running
min of upper bounds, over the criteria in order.  Python starts the fold
from `[-inf, inf]`; for a non-empty criteria list that equals starting
from the first constraint's interval, and for an empty list the caller
has already returned 1. -/
def scale_range (extent : Vec3) (swap : Bool) :
    List (RangeKey × ℚ × ℚ) → Option (ℚ × ℚ)
  | [] => none
  | c :: rest =>
    some (rest.foldl
      (fun acc c2 =>
        (max acc.1 (constraint_interval extent swap c2).1,
         min acc.2 (constraint_interval extent swap c2).2))
      (constraint_interval extent swap c))

/-- `sample_model_scale_from_constraint` (assets.py).  The natural extent
is computed by the external simulation (`get_model_natural_extent`) and is
a parameter; `uniform` stands for `np.random.uniform`. -/
def sample_model_scale_from_constraint (uniform : ℚ → ℚ → ℚ) (category : String)
    (extent : Vec3) : ℚ :=
  match lookupKey models category with
  | none => 1
  | some data =>
    let swap := decide (extent.1 < extent.2.1)
    match scale_range extent swap data.ranges with
    | none => 1
    | some (lo, hi) => uniform lo hi

/-! ## Instance-name extraction (assets.py) -/

/-- The marker `'<robot name="'` (13 characters) searched for by
`get_instance_name`. -/
def robot_mark : List Char := "<robot name=\"".toList

/-- `from_line` inside `get_instance_name`: strip newlines
(`r.replace('\n', '')`), drop the first 13 characters, and keep everything
before the next double quote (`r[:r.index('"')]`; a matching line with no
remaining quote would raise `ValueError` in Python — modelled as keeping
the whole remainder, a case no claim exercises). -/
def from_line (r : List Char) : List Char :=
  ((r.filter (fun c => c != '\n')).drop 13).takeWhile (fun c => c != '"')

/-- `get_instance_name` (assets.py).  The file is modelled as `none`
(missing) or `some rows` (its lines, `readlines`-style with trailing
newlines).  Only the first 50 lines are scanned; the declared name is
returned only when exactly one scanned line contains the marker. -/
def get_instance_name (file : Option (List (List Char))) : Option (List Char) :=
  match file with
  | none => none
  | some rows0 =>
    let rows := if rows0.length > 50 then rows0.take 50 else rows0
    match (rows.filter (fun r => listHasSub robot_mark r)).map from_line with
    | [n] => some n
    | _ => none

/-! ## Helper lemmas -/

theorem adjust_coord_zero (x : ℚ) : adjust_coord x 0 = x := by
  unfold adjust_coord
  split <;> ring

theorem adjust_point_zero (p : Vec3) : adjust_point p 0 = p := by
  simp [adjust_point, adjust_coord_zero]

theorem set_gripper_pose_eq_attempt {Conf : Type}
    (mult : Vec3 × Vec4 → Vec3 × Vec4 → Vec3 × Vec4) (o : GripperSim Conf)
    (pose : Vec3 × Vec4) (body : ℕ) (gp : Vec3 × Vec4) (tl : Bool) :
    set_gripper_pose mult o pose body gp tl = sgp_attempt mult o pose body gp 0 := by
  cases tl <;>
    · unfold set_gripper_pose sgp_loop
      cases h : sgp_attempt mult o pose body gp 0 <;> simp [h, sgp_loop]

theorem sgp_attempt_zero_grasp {Conf : Type}
    (mult : Vec3 × Vec4 → Vec3 × Vec4 → Vec3 × Vec4) (o : GripperSim Conf)
    (pose : Vec3 × Vec4) (body : ℕ) (gp : Vec3 × Vec4) :
    sgp_attempt mult o pose body gp 0 =
      match o.ikfast (mult pose gp) with
      | none => none
      | some pick_q =>
        if o.is_colliding pick_q then none
        else if (o.contacts_after_close.filter (fun cp => cp.body_b == body)).length = 0 then none
        else if |o.gripper_qpos_after_close.sum| < 1/100 then none
        else some gp := by
  unfold sgp_attempt
  rw [adjust_point_zero, Prod.mk.eta]
  rfl

theorem sgp_none_iff {Conf : Type}
    (mult : Vec3 × Vec4 → Vec3 × Vec4 → Vec3 × Vec4) (o : GripperSim Conf)
    (pose : Vec3 × Vec4) (body : ℕ) (gp : Vec3 × Vec4) (tl : Bool) :
    set_gripper_pose mult o pose body gp tl = none ↔
      o.ikfast (mult pose gp) = none ∨
        ∃ q, o.ikfast (mult pose gp) = some q ∧
          (o.is_colliding q = true ∨
           (o.contacts_after_close.filter (fun cp => cp.body_b == body)).length = 0 ∨
           |o.gripper_qpos_after_close.sum| < 1/100) := by
  rw [set_gripper_pose_eq_attempt, sgp_attempt_zero_grasp]
  cases hik : o.ikfast (mult pose gp) with
  | none => simp
  | some q =>
    simp only [hik, reduceCtorEq, false_or]
    constructor
    · intro h
      refine ⟨q, rfl, ?_⟩
      by_cases h1 : o.is_colliding q = true
      · exact Or.inl h1
      by_cases h2 :
        (o.contacts_after_close.filter (fun cp => cp.body_b == body)).length = 0
      · exact Or.inr (Or.inl h2)
      by_cases h3 : |o.gripper_qpos_after_close.sum| < 1/100
      · exact Or.inr (Or.inr h3)
      rw [if_neg h1, if_neg h2, if_neg h3] at h
      exact absurd h (by simp)
    · rintro ⟨q2, hq2, hrej⟩
      injection hq2 with he
      subst he
      rcases hrej with h1 | h2 | h3
      · rw [if_pos h1]
      · by_cases h1 : o.is_colliding q = true
        · rw [if_pos h1]
        · rw [if_neg h1, if_pos h2]
      · by_cases h1 : o.is_colliding q = true
        · rw [if_pos h1]
        by_cases h2 :
          (o.contacts_after_close.filter (fun cp => cp.body_b == body)).length = 0
        · rw [if_neg h1, if_pos h2]
        · rw [if_neg h1, if_neg h2, if_pos h3]

theorem sgp_result_cases {Conf : Type}
    (mult : Vec3 × Vec4 → Vec3 × Vec4 → Vec3 × Vec4) (o : GripperSim Conf)
    (pose : Vec3 × Vec4) (body : ℕ) (gp : Vec3 × Vec4) (tl : Bool) :
    set_gripper_pose mult o pose body gp tl = none ∨
      set_gripper_pose mult o pose body gp tl = some gp := by
  rw [set_gripper_pose_eq_attempt, sgp_attempt_zero_grasp]
  cases o.ikfast (mult pose gp) with
  | none => exact Or.inl rfl
  | some q =>
    dsimp only
    by_cases h1 : o.is_colliding q = true
    · exact Or.inl (by rw [if_pos h1])
    by_cases h2 : (o.contacts_after_close.filter (fun cp => cp.body_b == body)).length = 0
    · exact Or.inl (by rw [if_neg h1, if_pos h2])
    by_cases h3 : |o.gripper_qpos_after_close.sum| < 1/100
    · exact Or.inl (by rw [if_neg h1, if_neg h2, if_pos h3])
    · exact Or.inr (by rw [if_neg h1, if_neg h2, if_neg h3])

theorem qsign_pos {x : ℚ} (hx : 0 < x) : qsign x = 1 := by
  unfold qsign
  rw [if_neg (not_lt.mpr hx.le), if_neg (ne_of_gt hx)]

theorem qsign_of_neg {x : ℚ} (hx : x < 0) : qsign x = -1 := by
  unfold qsign
  rw [if_pos hx]

theorem face_candidates_pos_x (filt : Vec3) (hf : Bool) (a : ℚ) (ha : 0 < a) :
    face_candidates filt hf (a, 0, 0) =
      if hf ∧ filt.1 = 0 then [] else (rots (1, 0, 0)).map (fun r => ((a, 0, 0), r)) := by
  unfold face_candidates normalize_dir
  dsimp only
  rw [if_pos ⟨ne_of_gt ha, rfl, rfl⟩, qsign_pos ha]
  dsimp only
  simp only [mul_one, mul_zero, add_zero, ne_eq, not_not]

theorem face_candidates_pos_y (filt : Vec3) (hf : Bool) (a : ℚ) (ha : 0 < a) :
    face_candidates filt hf (0, a, 0) =
      if hf ∧ filt.2.1 = 0 then [] else (rots (0, 1, 0)).map (fun r => ((0, a, 0), r)) := by
  unfold face_candidates normalize_dir
  dsimp only
  rw [if_neg (fun hcon => hcon.1 rfl), if_pos ⟨rfl, ne_of_gt ha, rfl⟩, qsign_pos ha]
  dsimp only
  simp only [mul_one, mul_zero, add_zero, zero_add, ne_eq, not_not]

theorem face_candidates_pos_z (filt : Vec3) (hf : Bool) (a : ℚ) (ha : 0 < a) :
    face_candidates filt hf (0, 0, a) =
      if hf ∧ filt.2.2 = 0 then [] else (rots (0, 0, 1)).map (fun r => ((0, 0, a), r)) := by
  unfold face_candidates normalize_dir
  dsimp only
  rw [if_neg (fun hcon => hcon.1 rfl), if_neg (fun hcon => hcon.2.1 rfl),
    if_pos ⟨rfl, rfl, ne_of_gt ha⟩, qsign_pos ha]
  dsimp only
  simp only [mul_one, mul_zero, add_zero, zero_add, ne_eq, not_not]

theorem face_candidates_neg_x (filt : Vec3) (hf : Bool) (a : ℚ) (ha : 0 < a) :
    face_candidates filt hf (-a, 0, 0) =
      if hf ∧ filt.1 = 0 then [] else (rots (-1, 0, 0)).map (fun r => ((-a, 0, 0), r)) := by
  unfold face_candidates normalize_dir
  dsimp only
  rw [if_pos ⟨neg_ne_zero.mpr (ne_of_gt ha), rfl, rfl⟩, qsign_of_neg (neg_neg_of_pos ha)]
  dsimp only
  simp only [mul_neg, mul_one, mul_zero, add_zero, ne_eq, neg_eq_zero, not_not]

theorem face_candidates_neg_y (filt : Vec3) (hf : Bool) (a : ℚ) (ha : 0 < a) :
    face_candidates filt hf (0, -a, 0) =
      if hf ∧ filt.2.1 = 0 then [] else (rots (0, -1, 0)).map (fun r => ((0, -a, 0), r)) := by
  unfold face_candidates normalize_dir
  dsimp only
  rw [if_neg (fun hcon => hcon.1 rfl),
    if_pos ⟨rfl, neg_ne_zero.mpr (ne_of_gt ha), rfl⟩, qsign_of_neg (neg_neg_of_pos ha)]
  dsimp only
  simp only [mul_neg, mul_one, mul_zero, add_zero, zero_add, ne_eq, neg_eq_zero, not_not]

theorem face_candidates_neg_z (filt : Vec3) (hf : Bool) (a : ℚ) (ha : 0 < a) :
    face_candidates filt hf (0, 0, -a) =
      if hf ∧ filt.2.2 = 0 then [] else (rots (0, 0, -1)).map (fun r => ((0, 0, -a), r)) := by
  unfold face_candidates normalize_dir
  dsimp only
  rw [if_neg (fun hcon => hcon.1 rfl), if_neg (fun hcon => hcon.2.1 rfl),
    if_pos ⟨rfl, rfl, neg_ne_zero.mpr (ne_of_gt ha)⟩, qsign_of_neg (neg_neg_of_pos ha)]
  dsimp only
  simp only [mul_neg, mul_one, mul_zero, add_zero, zero_add, ne_eq, neg_eq_zero, not_not]

theorem generate_default_eq (w l h d : ℚ) (hf : Bool)
    (h1 : 0 < w/2 + d) (h2 : 0 < l/2 + d) (h3 : 0 < h/2 + d) :
    generate_candidates (w, l, h) d hf none =
      (if hf ∧ (if w ≠ max w (max l h) then (1 : ℚ) else 0) = 0 then []
        else (rots (1, 0, 0)).map (fun r => (((w/2 + d), (0 : ℚ), (0 : ℚ)), r))) ++
      (if hf ∧ (if l ≠ max w (max l h) then (1 : ℚ) else 0) = 0 then []
        else (rots (0, 1, 0)).map (fun r => (((0 : ℚ), l/2 + d, (0 : ℚ)), r))) ++
      (if hf ∧ (if h ≠ max w (max l h) then (1 : ℚ) else 0) = 0 then []
        else (rots (0, 0, 1)).map (fun r => (((0 : ℚ), (0 : ℚ), h/2 + d), r))) ++
      (if hf ∧ (if w ≠ max w (max l h) then (1 : ℚ) else 0) = 0 then []
        else (rots (-1, 0, 0)).map (fun r => ((-(w/2 + d), (0 : ℚ), (0 : ℚ)), r))) ++
      (if hf ∧ (if l ≠ max w (max l h) then (1 : ℚ) else 0) = 0 then []
        else (rots (0, -1, 0)).map (fun r => (((0 : ℚ), -(l/2 + d), (0 : ℚ)), r))) ++
      (if hf ∧ (if h ≠ max w (max l h) then (1 : ℚ) else 0) = 0 then []
        else (rots (0, 0, -1)).map (fun r => (((0 : ℚ), (0 : ℚ), -(h/2 + d)), r))) := by
  unfold generate_candidates
  dsimp only
  simp only [List.map_cons, List.map_nil, vneg, neg_zero, List.cons_append, List.nil_append,
    List.flatMap_cons, List.flatMap_nil, List.append_nil]
  rw [face_candidates_pos_x _ _ _ h1, face_candidates_pos_y _ _ _ h2,
    face_candidates_pos_z _ _ _ h3, face_candidates_neg_x _ _ _ h1,
    face_candidates_neg_y _ _ _ h2, face_candidates_neg_z _ _ _ h3]
  simp only [List.append_assoc]

/-- The handle-filter face condition, simplified: a face on axis `x` with
extent `P` survives the filter iff `P` is not the maximal extent `M`. -/
theorem if_filt_eq (P M : ℚ) (A : List (Vec3 × Vec3)) :
    (if (if P ≠ M then (1 : ℚ) else 0) = 0 then ([] : List (Vec3 × Vec3)) else A) =
      if P = M then [] else A := by
  by_cases hp : P = M
  · rw [if_pos (if_neg (not_not_intro hp)), if_pos hp]
  · rw [if_neg ?_, if_neg hp]
    intro h0
    rw [if_pos hp] at h0
    exact one_ne_zero h0

theorem generate_handle_eq (w l h d : ℚ)
    (h1 : 0 < w/2 + d) (h2 : 0 < l/2 + d) (h3 : 0 < h/2 + d) :
    generate_candidates (w, l, h) d true none =
      (if w = max w (max l h) then []
        else (rots (1, 0, 0)).map (fun r => (((w/2 + d), (0 : ℚ), (0 : ℚ)), r))) ++
      (if l = max w (max l h) then []
        else (rots (0, 1, 0)).map (fun r => (((0 : ℚ), l/2 + d, (0 : ℚ)), r))) ++
      (if h = max w (max l h) then []
        else (rots (0, 0, 1)).map (fun r => (((0 : ℚ), (0 : ℚ), h/2 + d), r))) ++
      (if w = max w (max l h) then []
        else (rots (-1, 0, 0)).map (fun r => ((-(w/2 + d), (0 : ℚ), (0 : ℚ)), r))) ++
      (if l = max w (max l h) then []
        else (rots (0, -1, 0)).map (fun r => (((0 : ℚ), -(l/2 + d), (0 : ℚ)), r))) ++
      (if h = max w (max l h) then []
        else (rots (0, 0, -1)).map (fun r => (((0 : ℚ), (0 : ℚ), -(h/2 + d)), r))) := by
  rw [generate_default_eq w l h d true h1 h2 h3]
  simp only [eq_self_iff_true, true_and, if_filt_eq, List.append_assoc]

/-! ## Claim theorems -/

theorem rots_px : rots (1, 0, 0) =
    [(1/2, 0, -1/2), (1/2, 1, -1/2), (1/2, -1/2, -1/2), (1/2, 1/2, -1/2)] := by
  unfold rots
  rw [if_pos rfl]

theorem rots_nx : rots (-1, 0, 0) =
    [(1/2, 0, 1/2), (1/2, 1, 1/2), (1/2, -1/2, 1/2), (1/2, 1/2, 1/2),
     (-1, -1/2, 0), (-1, -1/2, -1)] := by
  unfold rots
  rw [if_neg (by norm_num [Prod.ext_iff]), if_pos rfl]

theorem rots_py : rots (0, 1, 0) =
    [(0, 1/2, -1/2), (0, -1/2, 1/2), (1/2, 1, 0), (1/2, 0, 0)] := by
  unfold rots
  rw [if_neg (by norm_num [Prod.ext_iff]), if_neg (by norm_num [Prod.ext_iff]), if_pos rfl]

theorem rots_ny : rots (0, -1, 0) =
    [(0, 1/2, 1/2), (0, -1/2, -1/2), (-1/2, 1, 0), (-1/2, 0, 0)] := by
  unfold rots
  rw [if_neg (by norm_num [Prod.ext_iff]), if_neg (by norm_num [Prod.ext_iff]),
    if_neg (by norm_num [Prod.ext_iff]), if_pos rfl]

theorem rots_pz : rots (0, 0, 1) =
    [(1, 0, 1/2), (1, 0, -1/2), (1, 0, 0), (1, 0, 1)] := by
  unfold rots
  rw [if_neg (by norm_num [Prod.ext_iff]), if_neg (by norm_num [Prod.ext_iff]),
    if_neg (by norm_num [Prod.ext_iff]), if_neg (by norm_num [Prod.ext_iff]), if_pos rfl]

theorem rots_nz : rots (0, 0, -1) =
    [(0, 0, -1/2), (0, 0, 1/2), (0, 0, 0), (0, 0, 1)] := by
  unfold rots
  rw [if_neg (by norm_num [Prod.ext_iff]), if_neg (by norm_num [Prod.ext_iff]),
    if_neg (by norm_num [Prod.ext_iff]), if_neg (by norm_num [Prod.ext_iff]),
    if_neg (by norm_num [Prod.ext_iff]), if_pos rfl]

/-- At extent (3, 2, 1) with grasp_length 1 and the handle filter on, the
candidate at the y-axis face point (0, 2, 0) with the first y-table
orientation is emitted. -/
theorem y_face_candidate_mem :
    (((0 : ℚ), 2, 0), ((0 : ℚ), 1/2, -1/2)) ∈
      generate_candidates (3, 2, 1) 1 true none := by
  rw [generate_handle_eq 3 2 1 1 (by norm_num) (by norm_num) (by norm_num)]
  have hmax : max (3 : ℚ) (max 2 1) = 3 := by norm_num
  have f2 : (2 : ℚ)/2 + 1 = 2 := by norm_num
  rw [hmax, f2, if_pos rfl, if_neg (by norm_num), if_neg (by norm_num), if_pos rfl,
    if_neg (by norm_num), if_neg (by norm_num)]
  simp only [List.nil_append, List.append_nil]
  have hr : ((0 : ℚ), (1 : ℚ)/2, -1/2) ∈ rots (0, 1, 0) := by
    rw [rots_py]
    exact List.mem_cons_self _ _
  exact List.mem_append_left _ (List.mem_append_left _
    (List.mem_append_left _ (List.mem_map_of_mem _ hr)))

/-- C6: with no custom faces, `get_grasp_poses` enumerates candidates from
exactly the six face points `(±(w/2+d), 0, 0)`, `(0, ±(l/2+d), 0)`,
`(0, 0, ±(h/2+d))`, in that order, each contributing one candidate per
entry of its direction's orientation table, and every one of the six
orientation tables has at most 6 entries. -/
theorem default_face_set (w l h d : ℚ)
    (h1 : 0 < w/2 + d) (h2 : 0 < l/2 + d) (h3 : 0 < h/2 + d) :
    generate_candidates (w, l, h) d false none =
      (rots (1, 0, 0)).map (fun r => (((w/2 + d), (0 : ℚ), (0 : ℚ)), r)) ++
      (rots (0, 1, 0)).map (fun r => (((0 : ℚ), l/2 + d, (0 : ℚ)), r)) ++
      (rots (0, 0, 1)).map (fun r => (((0 : ℚ), (0 : ℚ), h/2 + d), r)) ++
      (rots (-1, 0, 0)).map (fun r => ((-(w/2 + d), (0 : ℚ), (0 : ℚ)), r)) ++
      (rots (0, -1, 0)).map (fun r => (((0 : ℚ), -(l/2 + d), (0 : ℚ)), r)) ++
      (rots (0, 0, -1)).map (fun r => (((0 : ℚ), (0 : ℚ), -(h/2 + d)), r)) ∧
    (rots (1, 0, 0)).length ≤ 6 ∧ (rots (0, 1, 0)).length ≤ 6 ∧
    (rots (0, 0, 1)).length ≤ 6 ∧ (rots (-1, 0, 0)).length ≤ 6 ∧
    (rots (0, -1, 0)).length ≤ 6 ∧ (rots (0, 0, -1)).length ≤ 6 := by
  refine ⟨?_, by rw [rots_px]; norm_num, by rw [rots_py]; norm_num,
    by rw [rots_pz]; norm_num, by rw [rots_nx]; norm_num,
    by rw [rots_ny]; norm_num, by rw [rots_nz]; norm_num⟩
  rw [generate_default_eq w l h d false h1 h2 h3]
  simp [List.append_assoc]

/-- Witness for C6 at the Bowl scenario: extent (0.16, 0.16, 0.08) and
grasp_length 0.02 give face points at (±0.10, 0, 0), (0, ±0.10, 0),
(0, 0, ±0.06). -/
theorem default_face_set_witness :
    ((0 : ℚ) < (4 : ℚ)/25/2 + 1/50) ∧ ((0 : ℚ) < (2 : ℚ)/25/2 + 1/50) ∧
    ((4 : ℚ)/25/2 + 1/50 = 1/10) ∧ ((2 : ℚ)/25/2 + 1/50 = 3/50) ∧
    generate_candidates (4/25, 4/25, 2/25) (1/50) false none =
      (rots (1, 0, 0)).map (fun r => (((1 : ℚ)/10, (0 : ℚ), (0 : ℚ)), r)) ++
      (rots (0, 1, 0)).map (fun r => (((0 : ℚ), (1 : ℚ)/10, (0 : ℚ)), r)) ++
      (rots (0, 0, 1)).map (fun r => (((0 : ℚ), (0 : ℚ), (3 : ℚ)/50), r)) ++
      (rots (-1, 0, 0)).map (fun r => ((-((1 : ℚ)/10), (0 : ℚ), (0 : ℚ)), r)) ++
      (rots (0, -1, 0)).map (fun r => (((0 : ℚ), -((1 : ℚ)/10), (0 : ℚ)), r)) ++
      (rots (0, 0, -1)).map (fun r => (((0 : ℚ), (0 : ℚ), -((3 : ℚ)/50)), r)) := by
  refine ⟨by norm_num, by norm_num, by norm_num, by norm_num, ?_⟩
  have e1 : (4 : ℚ)/25/2 + 1/50 = 1/10 := by norm_num
  have e2 : (2 : ℚ)/25/2 + 1/50 = 3/50 := by norm_num
  have h := (default_face_set (4/25) (4/25) (2/25) (1/50)
    (by norm_num) (by norm_num) (by norm_num)).1
  rw [e1, e2] at h
  exact h

/-- C2 (amended): with `HANDLE_FILTER` set and the default face set, every
emitted candidate has its face direction on an axis whose extent is NOT
the maximal AABB extent; faces aligned with a longest axis are the ones
skipped (the code keeps the larger surfaces, the opposite of the claim). -/
theorem handle_filter_non_longest (w l h d : ℚ)
    (h1 : 0 < w/2 + d) (h2 : 0 < l/2 + d) (h3 : 0 < h/2 + d)
    (c : Vec3 × Vec3) (hc : c ∈ generate_candidates (w, l, h) d true none) :
    (c.1.2.1 = 0 ∧ c.1.2.2 = 0 ∧ w ≠ max w (max l h)) ∨
    (c.1.1 = 0 ∧ c.1.2.2 = 0 ∧ l ≠ max w (max l h)) ∨
    (c.1.1 = 0 ∧ c.1.2.1 = 0 ∧ h ≠ max w (max l h)) := by
  rw [generate_handle_eq w l h d h1 h2 h3] at hc
  simp only [List.mem_append, or_assoc] at hc
  rcases hc with hc | hc | hc | hc | hc | hc
  · by_cases hw : w = max w (max l h)
    · rw [if_pos hw] at hc
      exact absurd hc (List.not_mem_nil c)
    · rw [if_neg hw] at hc
      obtain ⟨r, -, rfl⟩ := List.mem_map.mp hc
      exact Or.inl ⟨rfl, rfl, hw⟩
  · by_cases hl : l = max w (max l h)
    · rw [if_pos hl] at hc
      exact absurd hc (List.not_mem_nil c)
    · rw [if_neg hl] at hc
      obtain ⟨r, -, rfl⟩ := List.mem_map.mp hc
      exact Or.inr (Or.inl ⟨rfl, rfl, hl⟩)
  · by_cases hh : h = max w (max l h)
    · rw [if_pos hh] at hc
      exact absurd hc (List.not_mem_nil c)
    · rw [if_neg hh] at hc
      obtain ⟨r, -, rfl⟩ := List.mem_map.mp hc
      exact Or.inr (Or.inr ⟨rfl, rfl, hh⟩)
  · by_cases hw : w = max w (max l h)
    · rw [if_pos hw] at hc
      exact absurd hc (List.not_mem_nil c)
    · rw [if_neg hw] at hc
      obtain ⟨r, -, rfl⟩ := List.mem_map.mp hc
      exact Or.inl ⟨rfl, rfl, hw⟩
  · by_cases hl : l = max w (max l h)
    · rw [if_pos hl] at hc
      exact absurd hc (List.not_mem_nil c)
    · rw [if_neg hl] at hc
      obtain ⟨r, -, rfl⟩ := List.mem_map.mp hc
      exact Or.inr (Or.inl ⟨rfl, rfl, hl⟩)
  · by_cases hh : h = max w (max l h)
    · rw [if_pos hh] at hc
      exact absurd hc (List.not_mem_nil c)
    · rw [if_neg hh] at hc
      obtain ⟨r, -, rfl⟩ := List.mem_map.mp hc
      exact Or.inr (Or.inr ⟨rfl, rfl, hh⟩)

/-- Counterexample for C2: extent (3, 2, 1) with grasp_length 1 has its
longest axis on x, yet with `HANDLE_FILTER` set a candidate at the y-axis
face point (0, 2, 0) is emitted — a face direction not aligned with the
longest axis (extent 2 is not the maximum 3). -/
theorem handle_filter_counterexample :
    (((0 : ℚ), 2, 0), ((0 : ℚ), 1/2, -1/2)) ∈
      generate_candidates (3, 2, 1) 1 true none ∧
    (2 : ℚ) ≠ max 3 (max 2 1) :=
  ⟨y_face_candidate_mem, by norm_num⟩

/-- Witness for C2 at extent (3, 2, 1), grasp_length 1, and the emitted
candidate at face point (0, 2, 0). -/
theorem handle_filter_witness :
    ((0 : ℚ) < 3/2 + 1) ∧ ((0 : ℚ) < 2/2 + 1) ∧ ((0 : ℚ) < 1/2 + 1) ∧
    (((2 : ℚ) = 0 ∧ (0 : ℚ) = 0 ∧ (3 : ℚ) ≠ max 3 (max 2 1)) ∨
     ((0 : ℚ) = 0 ∧ (0 : ℚ) = 0 ∧ (2 : ℚ) ≠ max 3 (max 2 1)) ∨
     ((0 : ℚ) = 0 ∧ (2 : ℚ) = 0 ∧ (1 : ℚ) ≠ max 3 (max 2 1))) := by
  refine ⟨by norm_num, by norm_num, by norm_num, ?_⟩
  exact handle_filter_non_longest 3 2 1 1 (by norm_num) (by norm_num) (by norm_num)
    (((0 : ℚ), 2, 0), ((0 : ℚ), 1/2, -1/2)) y_face_candidate_mem

theorem foldl_minmax_bounds {α : Type} (f : α → ℚ × ℚ) (rest : List α) :
    ∀ acc : ℚ × ℚ,
      (acc.1 ≤ (rest.foldl (fun a c => (max a.1 (f c).1, min a.2 (f c).2)) acc).1 ∧
        (rest.foldl (fun a c => (max a.1 (f c).1, min a.2 (f c).2)) acc).2 ≤ acc.2) ∧
      ∀ c ∈ rest,
        (f c).1 ≤ (rest.foldl (fun a c => (max a.1 (f c).1, min a.2 (f c).2)) acc).1 ∧
        (rest.foldl (fun a c => (max a.1 (f c).1, min a.2 (f c).2)) acc).2 ≤ (f c).2 := by
  induction rest with
  | nil =>
    intro acc
    exact ⟨⟨le_refl _, le_refl _⟩, by intro c hc; cases hc⟩
  | cons c0 t ih =>
    intro acc
    simp only [List.foldl_cons]
    have h := ih (max acc.1 (f c0).1, min acc.2 (f c0).2)
    refine ⟨⟨le_trans (le_max_left _ _) h.1.1, le_trans h.1.2 (min_le_left _ _)⟩, ?_⟩
    intro c hc
    rcases List.mem_cons.mp hc with rfl | hcm
    · exact ⟨le_trans (le_max_right _ _) h.1.1, le_trans h.1.2 (min_le_right _ _)⟩
    · exact h.2 c hcm

theorem scale_range_bounds (extent : Vec3) (swap : Bool)
    (cs : List (RangeKey × ℚ × ℚ)) (lo hi : ℚ)
    (h : scale_range extent swap cs = some (lo, hi)) :
    ∀ c ∈ cs, (constraint_interval extent swap c).1 ≤ lo ∧
      hi ≤ (constraint_interval extent swap c).2 := by
  cases cs with
  | nil => cases h
  | cons c0 t =>
    unfold scale_range at h
    injection h with h
    intro c hc
    have hb := foldl_minmax_bounds (constraint_interval extent swap) t
      (constraint_interval extent swap c0)
    have hlo : lo =
        (t.foldl (fun a c => (max a.1 ((constraint_interval extent swap c)).1,
          min a.2 ((constraint_interval extent swap c)).2))
          (constraint_interval extent swap c0)).1 := by rw [h]
    have hhi : hi =
        (t.foldl (fun a c => (max a.1 ((constraint_interval extent swap c)).1,
          min a.2 ((constraint_interval extent swap c)).2))
          (constraint_interval extent swap c0)).2 := by rw [h]
    rw [hlo, hhi]
    rcases List.mem_cons.mp hc with rfl | hcm
    · exact ⟨hb.1.1, hb.1.2⟩
    · exact hb.2 c hcm

theorem extentAt_pos (e : Vec3) (h1 : 0 < e.1) (h2 : 0 < e.2.1) (h3 : 0 < e.2.2) :
    ∀ n : ℕ, 0 < extentAt e n
  | 0 => h1
  | 1 => h2
  | (_ + 2) => h3

/-- C3: whenever a category is present in the catalog and its constraint
intervals have a non-empty intersection for the model's (positive) natural
extent, every value the uniform draw can take yields a scale satisfying
every registered axis constraint. -/
theorem scale_constraint_satisfaction (uniform : ℚ → ℚ → ℚ) (category : String)
    (data : CatModels) (extent : Vec3) (lo hi : ℚ)
    (hcat : lookupKey models category = some data)
    (h1 : 0 < extent.1) (h2 : 0 < extent.2.1) (h3 : 0 < extent.2.2)
    (hr : scale_range extent (decide (extent.1 < extent.2.1)) data.ranges = some (lo, hi))
    (hlo : lo ≤ uniform lo hi) (hhi : uniform lo hi ≤ hi)
    (c : RangeKey × ℚ × ℚ) (hc : c ∈ data.ranges) :
    c.2.1 ≤ extentAt extent (axisOf (decide (extent.1 < extent.2.1)) c.1) *
        sample_model_scale_from_constraint uniform category extent ∧
    extentAt extent (axisOf (decide (extent.1 < extent.2.1)) c.1) *
        sample_model_scale_from_constraint uniform category extent ≤ c.2.2 := by
  have hs : sample_model_scale_from_constraint uniform category extent = uniform lo hi := by
    unfold sample_model_scale_from_constraint
    rw [hcat]
    dsimp only
    rw [hr]
  rw [hs]
  have hb := scale_range_bounds extent (decide (extent.1 < extent.2.1)) data.ranges lo hi hr c hc
  have he : 0 < extentAt extent (axisOf (decide (extent.1 < extent.2.1)) c.1) :=
    extentAt_pos extent h1 h2 h3 _
  have hb1 : c.2.1 / extentAt extent (axisOf (decide (extent.1 < extent.2.1)) c.1) ≤ lo := hb.1
  have hb2 : hi ≤ c.2.2 / extentAt extent (axisOf (decide (extent.1 < extent.2.1)) c.1) := hb.2
  constructor
  · rw [mul_comm]
    exact (div_le_iff₀ he).mp (le_trans hb1 hlo)
  · rw [mul_comm]
    exact (le_div_iff₀ he).mp (le_trans hhi hb2)

/-- Witness for C3: category Remote (constraints length in 0.22 to 0.24,
width in 0 to 0.06) at natural extent (0.2, 0.05, 0.03) has the
intersected scale interval given by 1.1 to 1.2; drawing its lower end
satisfies the length constraint. -/
theorem scale_constraint_satisfaction_witness :
    lookupKey models "Remote" = some
      ⟨["100269", "100270", "100392", "100394", "100809", "100819", "100997", "101034"],
        [(.lengthR, 0.22, 0.24), (.widthR, 0, 0.06)]⟩ ∧
    ((0 : ℚ) < (1/5 : ℚ)) ∧ ((0 : ℚ) < (1/20 : ℚ)) ∧ ((0 : ℚ) < (3/100 : ℚ)) ∧
    scale_range ((1 : ℚ)/5, (1 : ℚ)/20, (3 : ℚ)/100)
      (decide (((1 : ℚ)/5, (1 : ℚ)/20, (3 : ℚ)/100).1 < ((1 : ℚ)/5, (1 : ℚ)/20, (3 : ℚ)/100).2.1))
      [(.lengthR, 0.22, 0.24), (.widthR, 0, 0.06)] = some (11/10, 6/5) ∧
    ((0.22 : ℚ) ≤ extentAt ((1 : ℚ)/5, (1 : ℚ)/20, (3 : ℚ)/100)
        (axisOf (decide (((1 : ℚ)/5, (1 : ℚ)/20, (3 : ℚ)/100).1 <
          ((1 : ℚ)/5, (1 : ℚ)/20, (3 : ℚ)/100).2.1)) RangeKey.lengthR) *
        sample_model_scale_from_constraint (fun lo _ => lo) "Remote"
          ((1 : ℚ)/5, (1 : ℚ)/20, (3 : ℚ)/100) ∧
      extentAt ((1 : ℚ)/5, (1 : ℚ)/20, (3 : ℚ)/100)
        (axisOf (decide (((1 : ℚ)/5, (1 : ℚ)/20, (3 : ℚ)/100).1 <
          ((1 : ℚ)/5, (1 : ℚ)/20, (3 : ℚ)/100).2.1)) RangeKey.lengthR) *
        sample_model_scale_from_constraint (fun lo _ => lo) "Remote"
          ((1 : ℚ)/5, (1 : ℚ)/20, (3 : ℚ)/100) ≤ (0.24 : ℚ)) := by
  have hswap : decide (((1 : ℚ)/5, (1 : ℚ)/20, (3 : ℚ)/100).1 <
      ((1 : ℚ)/5, (1 : ℚ)/20, (3 : ℚ)/100).2.1) = false := by
    simp only [decide_eq_false_iff_not]
    norm_num
  have hr : scale_range ((1 : ℚ)/5, (1 : ℚ)/20, (3 : ℚ)/100)
      (decide (((1 : ℚ)/5, (1 : ℚ)/20, (3 : ℚ)/100).1 < ((1 : ℚ)/5, (1 : ℚ)/20, (3 : ℚ)/100).2.1))
      [(.lengthR, 0.22, 0.24), (.widthR, 0, 0.06)] = some (11/10, 6/5) := by
    rw [hswap]
    unfold scale_range constraint_interval axisOf extentAt
    simp only [List.foldl_cons, List.foldl_nil]
    norm_num
  refine ⟨rfl, by norm_num, by norm_num, by norm_num, hr, ?_⟩
  exact scale_constraint_satisfaction (fun lo _ => lo) "Remote"
    ⟨["100269", "100270", "100392", "100394", "100809", "100819", "100997", "101034"],
      [(.lengthR, 0.22, 0.24), (.widthR, 0, 0.06)]⟩
    ((1 : ℚ)/5, (1 : ℚ)/20, (3 : ℚ)/100) (11/10) (6/5) rfl
    (by norm_num) (by norm_num) (by norm_num) hr (le_refl _) (by norm_num)
    (.lengthR, 0.22, 0.24) (List.mem_cons_self _ _)

theorem lookupKey_cons {κ β : Type} [DecidableEq κ] (p : κ × β) (t : List (κ × β)) (k : κ) :
    lookupKey (p :: t) k = if p.1 = k then some p.2 else lookupKey t k := by
  cases p
  rfl

theorem lookupKey_eq_none_iff {κ β : Type} [DecidableEq κ] (l : List (κ × β)) (k : κ) :
    lookupKey l k = none ↔ k ∉ l.map Prod.fst := by
  induction l with
  | nil => simp [lookupKey]
  | cons p t ih =>
    rw [lookupKey_cons]
    by_cases hp : p.1 = k
    · simp [hp]
    · simp [hp, ih, Ne.symm hp]

theorem lookupKey_append_of_none {κ β : Type} [DecidableEq κ] (l1 l2 : List (κ × β)) (k : κ)
    (h : lookupKey l1 k = none) :
    lookupKey (l1 ++ l2) k = lookupKey l2 k := by
  induction l1 with
  | nil => rfl
  | cons p t ih =>
    by_cases hp : p.1 = k
    · rw [lookupKey_cons, if_pos hp] at h
      cases h
    · rw [lookupKey_cons, if_neg hp] at h
      rw [List.cons_append, lookupKey_cons, if_neg hp]
      exact ih h

theorem lookupKey_setKey_self {κ β : Type} [DecidableEq κ] (l : List (κ × β)) (k : κ) (v : β) :
    lookupKey (setKey l k v) k = some v := by
  induction l with
  | nil => simp [setKey, lookupKey]
  | cons p t ih =>
    cases p with
    | mk k0 v0 =>
      unfold setKey
      by_cases h0 : k0 = k
      · rw [if_pos h0, lookupKey_cons, if_pos h0]
      · rw [if_neg h0, lookupKey_cons, if_neg h0]
        exact ih

theorem lookupKey_setKey_other {κ β : Type} [DecidableEq κ] (l : List (κ × β)) (k k2 : κ)
    (v : β) (hk : k2 ≠ k) :
    lookupKey (setKey l k v) k2 = lookupKey l k2 := by
  induction l with
  | nil =>
    simp only [setKey, lookupKey]
    rw [if_neg (fun h => hk h.symm)]
  | cons p t ih =>
    cases p with
    | mk k0 v0 =>
      unfold setKey
      by_cases h0 : k0 = k
      · rw [if_pos h0, lookupKey_cons, lookupKey_cons]
        dsimp only
        rw [h0, if_neg (fun h => hk h.symm), if_neg (fun h => hk h.symm)]
      · rw [if_neg h0, lookupKey_cons, lookupKey_cons]
        dsimp only
        by_cases hk2 : k0 = k2
        · rw [if_pos hk2, if_pos hk2]
        · rw [if_neg hk2, if_neg hk2]
          exact ih

theorem setKey_map_fst_of_mem {κ β : Type} [DecidableEq κ] (l : List (κ × β)) (k : κ) (v : β)
    (hmem : k ∈ l.map Prod.fst) :
    (setKey l k v).map Prod.fst = l.map Prod.fst := by
  induction l with
  | nil => cases hmem
  | cons p t ih =>
    cases p with
    | mk k0 v0 =>
      unfold setKey
      by_cases h0 : k0 = k
      · rw [if_pos h0]
        simp only [List.map_cons]
      · rw [if_neg h0]
        simp only [List.map_cons]
        rw [ih]
        rcases List.mem_cons.mp hmem with h | h
        · exact absurd h.symm h0
        · exact h

theorem insertByDatetime_perm (p : String × Entry) (l : Db) :
    List.Perm (insertByDatetime p l) (p :: l) := by
  induction l with
  | nil => exact List.Perm.refl _
  | cons q t ih =>
    unfold insertByDatetime
    split
    · exact (ih.cons q).trans (List.Perm.swap p q t)
    · exact List.Perm.refl _

theorem sortByDatetime_perm_aux (l : Db) : ∀ acc : Db,
    List.Perm (l.foldl (fun acc x => insertByDatetime x acc) acc) (acc ++ l) := by
  induction l with
  | nil => intro acc; simp
  | cons x t ih =>
    intro acc
    simp only [List.foldl_cons]
    have h1 := ih (insertByDatetime x acc)
    have h2 : List.Perm ((insertByDatetime x acc) ++ t) ((x :: acc) ++ t) :=
      (insertByDatetime_perm x acc).append_right t
    have h3 : List.Perm ((x :: acc) ++ t) (acc ++ x :: t) := List.perm_middle.symm
    exact h1.trans (h2.trans h3)

theorem sortByDatetime_perm (l : Db) : List.Perm (sortByDatetime l) l := by
  simpa [sortByDatetime] using sortByDatetime_perm_aux l []

theorem lookupKey_perm : ∀ {l1 l2 : Db}, List.Perm l1 l2 → (l1.map Prod.fst).Nodup →
    ∀ k, lookupKey l1 k = lookupKey l2 k := by
  intro l1 l2 h
  induction h with
  | nil => intro _ _; rfl
  | cons a h ih =>
    intro nd k
    rw [lookupKey_cons, lookupKey_cons]
    by_cases ha : a.1 = k
    · rw [if_pos ha, if_pos ha]
    · rw [if_neg ha, if_neg ha]
      exact ih (by simp only [List.map_cons, List.nodup_cons] at nd; exact nd.2) k
  | swap a b l =>
    intro nd k
    rw [lookupKey_cons, lookupKey_cons, lookupKey_cons, lookupKey_cons]
    have hne : b.1 ≠ a.1 := by
      simp only [List.map_cons, List.nodup_cons, List.mem_cons] at nd
      exact fun he => nd.1 (Or.inl he)
    by_cases hb : b.1 = k <;> by_cases ha : a.1 = k
    · exact absurd (hb.trans ha.symm) hne
    · simp only [if_pos hb, if_neg ha]
    · simp only [if_neg hb, if_pos ha]
    · simp only [if_neg hb, if_neg ha]
  | trans h1 h2 ih1 ih2 =>
    intro nd k
    have nd2 := ((h1.map Prod.fst).nodup_iff).mp nd
    exact (ih1 nd k).trans (ih2 nd2 k)

theorem map_vscale_one (l : List Grasp) :
    l.map (fun g => (vscale 1 g.1, g.2)) = l := by
  induction l with
  | nil => rfl
  | cons a t ih => simp [vscale, ih]

/-- C1 (amended): the scale rescaling law holds only for instance names
that do not contain `"::"`.  For such an instance stored at canonical
scale `s0` with a non-empty canonical grasp list, a lookup at scale `s1`
returns the stored grasps with positions multiplied componentwise by
`s1/s0` and orientations unchanged. -/
theorem scale_rescaling_law (qfe : Vec3 → Vec4) (db : Db) (inst : String) (e : Entry)
    (s0 s1 : ℚ)
    (hfind : lookupKey db inst = some e)
    (hscale : e.scale = .val s0)
    (hs0 : s0 ≠ 0)
    (hne : e.grasps ≠ [])
    (hcolon : strHas "::" inst = false) :
    find_grasp_in_db qfe db inst (some s1) =
      some ((rewrite_grasps qfe e.grasps).map (fun g => (vscale (s1 / s0) g.1, g.2))) := by
  unfold find_grasp_in_db
  rw [hfind]
  dsimp only
  rw [hcolon]
  rw [if_pos (by simp)]
  rw [if_pos (List.length_pos.mpr hne)]
  rw [hscale]
  dsimp only
  by_cases hss : s1 = s0
  · rw [if_neg (not_not_intro hss)]
    subst hss
    rw [div_self hs0, map_vscale_one]
  · rw [if_pos hss]

/-- Counterexample for C1: the spec's own end-to-end scenario.  The
instance name "obj::1" contains "::", so a lookup at scale 2.0 with
canonical scale 1.0 takes neither the canonical branch (scales differ)
nor the alternate-scale branch (no alternate entry): it returns
not-found, not the rescaled grasp ((0.08,0,0.04),(0,0,0,1)). -/
theorem scale_rescaling_sep_counterexample :
    find_grasp_in_db (fun _ => ((0 : ℚ), 0, 0, 1))
      [("obj::1", ⟨"None", [.pointQuat (1/25, 0, 1/50) ((0 : ℚ), 0, 0, 1)], "t", .val 1, none⟩)]
      "obj::1" (some 2) = none ∧
    (none : Option (List Grasp)) ≠
      some [((2/25, 0, 1/25), ((0 : ℚ), 0, 0, 1))] := by
  constructor
  · rfl
  · intro h
    cases h

/-- Witness for C1 at the same data but with the separator-free name
"obj1": the lookup at scale 2.0 rescales ((0.04,0,0.02) to (0.08,0,0.04))
and leaves the orientation unchanged. -/
theorem scale_rescaling_law_witness :
    find_grasp_in_db (fun _ => ((0 : ℚ), 0, 0, 1))
      [("obj1", ⟨"None", [.pointQuat (1/25, 0, 1/50) ((0 : ℚ), 0, 0, 1)], "t", .val 1, none⟩)]
      "obj1" (some 2) = some [((2/25, 0, 1/25), ((0 : ℚ), 0, 0, 1))] := by
  have h := scale_rescaling_law (fun _ => ((0 : ℚ), 0, 0, 1))
    [("obj1", ⟨"None", [.pointQuat (1/25, 0, 1/50) ((0 : ℚ), 0, 0, 1)], "t", .val 1, none⟩)]
    "obj1" ⟨"None", [.pointQuat (1/25, 0, 1/50) ((0 : ℚ), 0, 0, 1)], "t", .val 1, none⟩
    1 2 rfl rfl one_ne_zero (by intro hx; cases hx) (by rfl)
  rw [h]
  unfold rewrite_grasps decode_one
  simp only [List.map_cons, List.map_nil, vscale]
  norm_num

theorem scale_matches_store (s : Option ℚ) : scale_matches (scaleStore s) s = true := by
  cases s with
  | none => rfl
  | some v => simp [scaleStore, scale_matches]

theorem rewrite_encoded (qfe : Vec3 → Vec4) (efq : Vec4 → Vec3) (grasps : List Grasp)
    (hg : grasps ≠ []) :
    rewrite_grasps qfe (grasps.map (nice_pose4 efq)) =
      grasps.map (fun g => (nice_tuple3 4 g.1, qfe (nice_tuple3 4 (efq g.2)))) := by
  cases grasps with
  | nil => exact absurd rfl hg
  | cons g0 t =>
    simp only [List.map_cons]
    unfold rewrite_grasps
    simp only [List.map_cons, List.map_map]
    have hcomp : (decode_one qfe (nice_pose4 efq g0)) ∘ (nice_pose4 efq) =
        fun g => (nice_tuple3 4 g.1, qfe (nice_tuple3 4 (efq g.2))) := by
      funext g
      rfl
    rw [hcomp]
    rfl

/-- C7: an upsert on an instance name already present only changes that
entry's `other_scales` map (adding or replacing the slot for the given
scale); the canonical fields and every other key's entry are unchanged in
the rewritten (re-sorted) store. -/
theorem upsert_preserves_canonical (efq : Vec4 → Vec3) (db : Db) (inst : String) (e : Entry)
    (grasps : List Grasp) (name : Option String) (scale : Option ℚ) (now : String) (k : String)
    (hnd : (db.map Prod.fst).Nodup)
    (hin : lookupKey db inst = some e)
    (hg : grasps ≠ [])
    (hk : k ≠ inst) :
    (add_grasp_in_db efq db (some inst) grasps name scale now).bind
        (fun db2 => lookupKey db2 inst) =
      some { e with other_scales := some (setKey (e.other_scales.getD []) scale
        (grasps.map (nice_pose4 efq))) } ∧
    (add_grasp_in_db efq db (some inst) grasps name scale now).bind
        (fun db2 => lookupKey db2 k) = lookupKey db k := by
  have hlen : ¬ (grasps.map (nice_pose4 efq)).length = 0 := by
    rw [List.length_map, List.length_eq_zero]
    exact hg
  have hadd : add_grasp_in_db efq db (some inst) grasps name scale now =
      some (sortByDatetime (setKey db inst
        { e with other_scales := some (setKey (e.other_scales.getD []) scale
            (grasps.map (nice_pose4 efq))) })) := by
    unfold add_grasp_in_db
    dsimp only
    rw [if_neg hlen, hin]
  rw [hadd]
  simp only [Option.some_bind]
  have hmem : inst ∈ db.map Prod.fst := by
    by_contra hm
    rw [← lookupKey_eq_none_iff] at hm
    rw [hm] at hin
    cases hin
  have hkeys := setKey_map_fst_of_mem db inst
    { e with other_scales := some (setKey (e.other_scales.getD []) scale
        (grasps.map (nice_pose4 efq))) } hmem
  have hnd2 : ((setKey db inst
      { e with other_scales := some (setKey (e.other_scales.getD []) scale
          (grasps.map (nice_pose4 efq))) }).map Prod.fst).Nodup := by
    rw [hkeys]
    exact hnd
  have hperm := sortByDatetime_perm (setKey db inst
    { e with other_scales := some (setKey (e.other_scales.getD []) scale
        (grasps.map (nice_pose4 efq))) })
  have hnds := ((hperm.map Prod.fst).nodup_iff).mpr hnd2
  constructor
  · rw [lookupKey_perm hperm hnds inst]
    exact lookupKey_setKey_self db inst _
  · rw [lookupKey_perm hperm hnds k]
    exact lookupKey_setKey_other db inst k _ hk

/-- Witness for C7 on a one-entry store: the upsert at scale 2 only adds
an alternate-scale slot to "i1" and leaves the lookup of the absent key
"i2" unchanged. -/
theorem upsert_preserves_canonical_witness :
    (add_grasp_in_db (fun _ => ((0 : ℚ), 0, 0))
        [("i1", ⟨"n", [.flat6 (1, 0, 0) (0, 0, 0)], "t0", .val 1, none⟩)]
        (some "i1") [(((1 : ℚ)/2, 0, 0), ((5 : ℚ), 6, 7, 8))] none (some 2) "t1").bind
      (fun db2 => lookupKey db2 "i1") =
      some (⟨"n", [.flat6 (1, 0, 0) (0, 0, 0)], "t0", .val 1,
        some [(some 2,
          [nice_pose4 (fun _ => ((0 : ℚ), 0, 0)) (((1 : ℚ)/2, 0, 0), ((5 : ℚ), 6, 7, 8))])]⟩ :
        Entry) ∧
    (add_grasp_in_db (fun _ => ((0 : ℚ), 0, 0))
        [("i1", ⟨"n", [.flat6 (1, 0, 0) (0, 0, 0)], "t0", .val 1, none⟩)]
        (some "i1") [(((1 : ℚ)/2, 0, 0), ((5 : ℚ), 6, 7, 8))] none (some 2) "t1").bind
      (fun db2 => lookupKey db2 "i2") =
      lookupKey [("i1", ⟨"n", [.flat6 (1, 0, 0) (0, 0, 0)], "t0", .val 1, none⟩)] "i2" :=
  upsert_preserves_canonical (fun _ => ((0 : ℚ), 0, 0))
    [("i1", ⟨"n", [.flat6 (1, 0, 0) (0, 0, 0)], "t0", .val 1, none⟩)]
    "i1" ⟨"n", [.flat6 (1, 0, 0) (0, 0, 0)], "t0", .val 1, none⟩
    [(((1 : ℚ)/2, 0, 0), ((5 : ℚ), 6, 7, 8))] none (some 2) "t1" "i2"
    (by simp) rfl (by intro hx; cases hx) (by decide)

/-- C5 (amended): the upsert-then-lookup round trip holds for an instance
name NOT already present in the store: the lookup at the same scale returns
exactly the stored poses, i.e. each input grasp with its position rounded
to 4 decimals and its orientation re-encoded through
`quat_from_euler (round4 (euler_from_quat q))`.  (For an already-present
name the lookup prefers the canonical entry and the round trip fails; see
the counterexample.) -/
theorem roundtrip_fresh_instance (qfe : Vec3 → Vec4) (efq : Vec4 → Vec3) (db : Db)
    (inst : String) (grasps : List Grasp) (name : Option String) (scale : Option ℚ)
    (now : String)
    (hnd : (db.map Prod.fst).Nodup)
    (hnew : lookupKey db inst = none)
    (hg : grasps ≠ []) :
    (add_grasp_in_db efq db (some inst) grasps name scale now).bind
        (fun db2 => find_grasp_in_db qfe db2 inst scale) =
      some (grasps.map (fun g => (nice_tuple3 4 g.1, qfe (nice_tuple3 4 (efq g.2))))) := by
  have hlen : ¬ (grasps.map (nice_pose4 efq)).length = 0 := by
    rw [List.length_map, List.length_eq_zero]
    exact hg
  have hadd : add_grasp_in_db efq db (some inst) grasps name scale now =
      some (sortByDatetime (db ++ [(inst,
        ⟨name.getD "None", grasps.map (nice_pose4 efq), now, scaleStore scale, none⟩)])) := by
    unfold add_grasp_in_db
    dsimp only
    rw [if_neg hlen, hnew]
  rw [hadd]
  simp only [Option.some_bind]
  have hperm := sortByDatetime_perm (db ++ [(inst,
    ⟨name.getD "None", grasps.map (nice_pose4 efq), now, scaleStore scale, none⟩)])
  have hnd2 : ((db ++ [(inst,
      (⟨name.getD "None", grasps.map (nice_pose4 efq), now, scaleStore scale, none⟩ :
        Entry))]).map Prod.fst).Nodup := by
    rw [List.map_append]
    refine List.nodup_append.mpr ⟨hnd, List.nodup_singleton _, ?_⟩
    intro x hx hx2
    simp only [List.map_cons, List.map_nil, List.mem_singleton] at hx2
    subst hx2
    exact ((lookupKey_eq_none_iff db x).mp hnew) hx
  have hnds := ((hperm.map Prod.fst).nodup_iff).mpr hnd2
  have hlook : lookupKey (sortByDatetime (db ++ [(inst,
      ⟨name.getD "None", grasps.map (nice_pose4 efq), now, scaleStore scale, none⟩)])) inst =
      some ⟨name.getD "None", grasps.map (nice_pose4 efq), now, scaleStore scale, none⟩ := by
    rw [lookupKey_perm hperm hnds inst, lookupKey_append_of_none db _ inst hnew, lookupKey_cons]
    simp
  unfold find_grasp_in_db
  rw [hlook]
  dsimp only
  rw [scale_matches_store, Bool.or_true, if_pos rfl]
  have hpos : 0 < (grasps.map (nice_pose4 efq)).length := by
    rw [List.length_map]
    exact List.length_pos.mpr hg
  rw [if_pos hpos]
  cases scale with
  | none =>
    dsimp only [scaleStore]
    rw [rewrite_encoded qfe efq grasps hg]
  | some sv =>
    dsimp only [scaleStore]
    rw [if_neg (not_not_intro rfl), rewrite_encoded qfe efq grasps hg]

/-- Counterexample for C5: upserting new grasps for an instance that is
ALREADY stored (here at the same scale as its canonical scale) places them
in `other_scales`, but the follow-up lookup takes the canonical branch and
returns the OLD canonical grasps ((1,0,0)), not the newly stored ((2,0,0)). -/
theorem roundtrip_existing_counterexample :
    (add_grasp_in_db (fun _ => ((0 : ℚ), 0, 0))
        [("a::b", ⟨"None", [.flat6 (1, 0, 0) (0, 0, 0)], "t0", .val 1, none⟩)]
        (some "a::b") [(((2 : ℚ), 0, 0), ((0 : ℚ), 0, 0, 1))] none (some 1) "t1").bind
      (fun db2 => find_grasp_in_db (fun _ => ((0 : ℚ), 0, 0, 1)) db2 "a::b" (some 1)) =
      some [(((1 : ℚ), 0, 0), ((0 : ℚ), 0, 0, 1))] ∧
    some [(((1 : ℚ), 0, 0), ((0 : ℚ), 0, 0, 1))] ≠
      some [(((2 : ℚ), 0, 0), ((0 : ℚ), 0, 0, 1))] := by
  constructor
  · rfl
  · intro hcontra
    injection hcontra with h1
    injection h1 with h2 h3
    injection h2 with hA hB
    injection hA with hx hy
    exact absurd hx (by norm_num)

/-- Witness for C5 on a fresh instance with 4-decimal-exact values: the
round trip returns exactly what was stored. -/
theorem roundtrip_fresh_instance_witness :
    (([] : Db).map Prod.fst).Nodup ∧
    (add_grasp_in_db (fun _ => ((0 : ℚ), 0, 0)) [] (some "fresh")
        [(((1 : ℚ)/2, 0, 0), ((5 : ℚ), 6, 7, 8))] none (some 2) "t").bind
      (fun db2 => find_grasp_in_db (fun _ => ((0 : ℚ), 0, 0, 1)) db2 "fresh" (some 2)) =
      some [(((1 : ℚ)/2, 0, 0), ((0 : ℚ), 0, 0, 1))] := by
  refine ⟨List.nodup_nil, ?_⟩
  have h := roundtrip_fresh_instance (fun _ => ((0 : ℚ), 0, 0, 1)) (fun _ => ((0 : ℚ), 0, 0))
    [] "fresh" [(((1 : ℚ)/2, 0, 0), ((5 : ℚ), 6, 7, 8))] none (some 2) "t"
    List.nodup_nil rfl (by intro hx; cases hx)
  rw [h]
  simp only [List.map_cons, List.map_nil]
  norm_num [nice_tuple3, pyRound, pyRoundInt]

/-- C4: the grasp validator `set_gripper_pose`, with the simulation queries
taken as oracles, returns `none` exactly when the IK solve fails, or the
open-gripper configuration collides, or after closing no contact point
involves the target body, or the summed gripper joint position has
magnitude below the fixed threshold 0.01; otherwise it returns the
accepted grasp pose. -/
theorem validator_accept_reject {Conf : Type}
    (mult : Vec3 × Vec4 → Vec3 × Vec4 → Vec3 × Vec4) (o : GripperSim Conf)
    (pose : Vec3 × Vec4) (body : ℕ) (gp : Vec3 × Vec4) (tl : Bool) :
    (set_gripper_pose mult o pose body gp tl = none ↔
      o.ikfast (mult pose gp) = none ∨
        ∃ q, o.ikfast (mult pose gp) = some q ∧
          (o.is_colliding q = true ∨
           (o.contacts_after_close.filter (fun cp => cp.body_b == body)).length = 0 ∨
           |o.gripper_qpos_after_close.sum| < 1/100)) ∧
    (set_gripper_pose mult o pose body gp tl = none ∨
      set_gripper_pose mult o pose body gp tl = some gp) :=
  ⟨sgp_none_iff mult o pose body gp tl, sgp_result_cases mult o pose body gp tl⟩

/-- C10: the `try_length` flag of `set_gripper_pose` has no effect (both
branches use the displacement list `[0]`), and an accepted grasp is the
input candidate pose unchanged (zero length adjustment). -/
theorem try_length_no_effect {Conf : Type}
    (mult : Vec3 × Vec4 → Vec3 × Vec4 → Vec3 × Vec4) (o : GripperSim Conf)
    (pose : Vec3 × Vec4) (body : ℕ) (gp : Vec3 × Vec4) :
    set_gripper_pose mult o pose body gp true = set_gripper_pose mult o pose body gp false ∧
    (set_gripper_pose mult o pose body gp true = none ∨
      set_gripper_pose mult o pose body gp true = some gp) :=
  ⟨rfl, sgp_result_cases mult o pose body gp true⟩

/-- C8: `add_grasp_in_db` is a no-op (no store mutation, no file write,
modelled as the `none` result) whenever the instance name is missing or
the grasp list is empty. -/
theorem upsert_noop_on_empty (efq : Vec4 → Vec3) (db : Db) (instance_name : Option String)
    (grasps : List Grasp) (name : Option String) (scale : Option ℚ) (now : String)
    (h : instance_name = none ∨ grasps = []) :
    add_grasp_in_db efq db instance_name grasps name scale now = none := by
  rcases h with h | h
  · subst h; rfl
  · subst h
    cases instance_name <;> rfl

/-- Witness for C8 at a concrete database and empty grasp list. -/
theorem upsert_noop_on_empty_witness :
    ((none : Option String) = none ∨ ([((1, 0, 0), (0, 0, 0, 1))] : List Grasp) = []) ∧
    add_grasp_in_db (fun _ => ((0 : ℚ), 0, 0))
      [("a", ⟨"n", [.flat6 (1, 0, 0) (0, 0, 0)], "t0", .val 1, none⟩)]
      none [((1, 0, 0), (0, 0, 0, 1))] none (some 1) "t1" = none :=
  ⟨Or.inl rfl,
    upsert_noop_on_empty (fun _ => ((0 : ℚ), 0, 0))
      [("a", ⟨"n", [.flat6 (1, 0, 0) (0, 0, 0)], "t0", .val 1, none⟩)]
      none [((1, 0, 0), (0, 0, 0, 1))] none (some 1) "t1" (Or.inl rfl)⟩

/-- C9 (amended): `get_instance_name` returns `none` for a missing file,
and for an existing file it scans only the first 50 lines and returns the
extracted name exactly when precisely one scanned line contains
`'<robot name="'` — not the first of several matches. -/
theorem instance_name_exactly_one (rows : List (List Char)) :
    get_instance_name (some rows) =
      (match (if rows.length > 50 then rows.take 50 else rows).filter
          (fun r => listHasSub robot_mark r) with
       | [r] => some (from_line r)
       | _ => none) ∧
    get_instance_name none = none := by
  refine ⟨?_, rfl⟩
  unfold get_instance_name
  cases h : (if rows.length > 50 then rows.take 50 else rows).filter
      (fun r => listHasSub robot_mark r) with
  | nil => simp [h]
  | cons a t => cases t <;> simp [h]

/-- Counterexample for C9: a readable file whose first two lines both
declare a robot name.  The claim predicts the first extracted name
`['a']`; the code returns `none` because the match is not unique. -/
theorem instance_name_two_matches_counterexample :
    get_instance_name
      (some [("<robot name=\"a\">".toList ++ ['\n']),
             ("<robot name=\"b\">".toList ++ ['\n'])]) = none ∧
    from_line ("<robot name=\"a\">".toList ++ ['\n']) = ['a'] ∧
    (some ['a'] : Option (List Char)) ≠ none := by
  refine ⟨by decide, by decide, by decide⟩

end PackingModels
